import Mathlib

/-!
Shallow embedding of `src/user_scripts/dusky_system/dusky_control_center.py`
(Dusky Control Center): terminal resolution, terminal command construction,
configuration loading, and the click-time command dispatcher.

External effects are made explicit parameters:
* `shutil.which` becomes a predicate `which : String → Bool`;
* the filesystem read in `load_config` becomes a `fileExists : Bool` flag plus
  an `Except String PyValue` holding either the parsed YAML document or the
  message of the exception `yaml.safe_load`/`open` raised;
* `os.path.expandvars` becomes a function `expand : String → String`;
* `subprocess.Popen` becomes a record `Popen` of the arguments the code passes.
-/

/-- `CONFIG_FILENAME` from the source. -/
def CONFIG_FILENAME : String := "dusky_config.yaml"

/-- `APP_TITLE` from the source. -/
def APP_TITLE : String := "Dusky Control Center"

/-- `TERMINALS`: supported terminals in order of preference. -/
def TERMINALS : List String :=
  ["kitty", "foot", "alacritty", "wezterm", "gnome-terminal", "konsole", "xfce4-terminal"]

/-- `find_terminal`: the source iterates over `TERMINALS` returning the first
name accepted by `shutil.which`, else `None`.  The probe is the parameter. -/
def find_terminal (which : String → Bool) : Option String :=
  TERMINALS.find? which

/-- `build_terminal_cmd`: constructs the argument list to run `shell_cmd`
inside `terminal`; when `wait` is true the shell command gets the
keep-window-open suffix appended inside the same string. -/
def build_terminal_cmd (terminal title shell_cmd : String) (wait : Bool) : List String :=
  let full_cmd :=
    if wait then shell_cmd ++ "; echo \"\"; echo \"Press Enter to close...\"; read"
    else shell_cmd
  if terminal == "kitty" then [terminal, "--title", title, "sh", "-c", full_cmd]
  else if terminal == "foot" then [terminal, "--title", title, "sh", "-c", full_cmd]
  else if terminal == "alacritty" then [terminal, "--title", title, "-e", "sh", "-c", full_cmd]
  else if terminal == "wezterm" then [terminal, "start", "--", "sh", "-c", full_cmd]
  else if terminal == "gnome-terminal" then
    [terminal, "--title=" ++ title, "--wait", "--", "sh", "-c", full_cmd]
  else if terminal == "konsole" then [terminal, "--title", title, "-e", "sh", "-c", full_cmd]
  else [terminal, "-e", "sh", "-c", full_cmd]

/-- Python values as produced by `yaml.safe_load`, as far as this program
inspects them. -/
inductive PyValue where
  | none
  | bool (b : Bool)
  | int (n : Int)
  | str (s : String)
  | list (xs : List PyValue)
  | dict (kvs : List (String × PyValue))
deriving Repr

/-- Python truthiness (`if data:`) on `PyValue`. -/
def truthy : PyValue → Bool
  | PyValue.none => false
  | PyValue.bool b => b
  | PyValue.int n => n != 0
  | PyValue.str s => !s.isEmpty
  | PyValue.list xs => !xs.isEmpty
  | PyValue.dict kvs => !kvs.isEmpty

/-- `_error_config`: the synthetic one-item "Error" configuration. -/
def error_config (message : String) : PyValue :=
  PyValue.dict [("pages", PyValue.list [PyValue.dict
    [("name", PyValue.str "Error"),
     ("groups", PyValue.list [PyValue.dict
       [("title", PyValue.str "Error"),
        ("items", PyValue.list [PyValue.dict
          [("title", PyValue.str "Config Error"),
           ("description", PyValue.str message)]])]])]])]

/-- `load_config`: the filesystem interaction is abstracted into whether the
config file exists and, when it does, the outcome of reading and parsing it
(`Except.error` carries the message of the raised exception). -/
def load_config (fileExists : Bool) (readResult : Except String PyValue) : PyValue :=
  if !fileExists then error_config ("Config file missing: " ++ CONFIG_FILENAME)
  else
    match readResult with
    | Except.error e => error_config e
    | Except.ok data => if truthy data then data else PyValue.dict [("pages", PyValue.list [])]

/-- Lookup in a `PyValue.dict`, first binding wins (Python dicts have unique
keys; the configs this program builds do too). -/
def dictGet (kvs : List (String × PyValue)) (k : String) : Option PyValue :=
  (kvs.find? (fun p => p.1 == k)).map Prod.snd

/-- The `pages` of a configuration, when present and a list. -/
def config_pages : PyValue → Option (List PyValue)
  | PyValue.dict kvs =>
    match dictGet kvs "pages" with
    | some (PyValue.list xs) => some xs
    | _ => Option.none
  | _ => Option.none

/-- A string-valued field of a dict value. -/
def getStrField (v : PyValue) (k : String) : Option String :=
  match v with
  | PyValue.dict kvs =>
    match dictGet kvs k with
    | some (PyValue.str s) => some s
    | _ => Option.none
  | _ => Option.none

/-- A list-valued field of a dict value. -/
def getListField (v : PyValue) (k : String) : Option (List PyValue) :=
  match v with
  | PyValue.dict kvs =>
    match dictGet kvs k with
    | some (PyValue.list xs) => some xs
    | _ => Option.none
  | _ => Option.none

/-- Whether the character list `n` starts the character list given second. -/
def leadsWith : List Char → List Char → Bool
  | [], _ => true
  | _ :: _, [] => false
  | a :: as, b :: bs => a == b && leadsWith as bs

/-- Whether `n` occurs as a contiguous run inside the second list. -/
def hasSub (n : List Char) : List Char → Bool
  | [] => n.isEmpty
  | c :: t => leadsWith n (c :: t) || hasSub n t

/-- Python's `needle in haystack` on strings. -/
def pyIn (needle haystack : String) : Bool :=
  hasSub needle.data haystack.data

/-- The whitespace characters Python's `str.strip()` removes. -/
def isPyWs (c : Char) : Bool :=
  c == ' ' || c == '\t' || c == '\n' || c == '\r' || c == '\x0b' || c == '\x0c'

/-- `not command.strip()`: true iff the string is empty or all whitespace. -/
def isBlank (s : String) : Bool :=
  s.data.all isPyWs

/-- The argument passed to `subprocess.Popen`: an argument vector or a raw
shell string. -/
inductive SpawnArgs where
  | argv (args : List String)
  | shellStr (cmd : String)
deriving Repr

/-- The `subprocess.Popen` call as this program makes it: the arguments, the
`shell` flag, `start_new_session`, and whether each standard stream is
redirected to `DEVNULL`. -/
structure Popen where
  args : SpawnArgs
  shell : Bool
  start_new_session : Bool
  stdin_devnull : Bool
  stdout_devnull : Bool
  stderr_devnull : Bool
deriving Repr

/-- `_spawn_process`: background spawn, optionally wrapped in `uwsm-app`. -/
def spawn_process (cmd : String) (wrap_uwsm : Bool) : Popen :=
  { args := if wrap_uwsm then SpawnArgs.argv ["uwsm-app", "--", "sh", "-c", cmd]
            else SpawnArgs.shellStr cmd,
    shell := !wrap_uwsm,
    start_new_session := true,
    stdin_devnull := true, stdout_devnull := true, stderr_devnull := true }

/-- `_spawn_terminal`: runs `cmd` in the startup-resolved terminal, always
wrapped in `uwsm-app`; with no terminal it falls back to a wrapped background
spawn.  (`shell` is not passed in the terminal branch, so it is Popen's
default `False`.) -/
def spawn_terminal (resolved : Option String) (cmd : String) : Popen :=
  match resolved with
  | Option.none => spawn_process cmd true
  | some t =>
    { args := SpawnArgs.argv (["uwsm-app", "--"] ++ build_terminal_cmd t APP_TITLE cmd true),
      shell := false,
      start_new_session := true,
      stdin_devnull := true, stdout_devnull := true, stderr_devnull := true }

/-- An item's fields as `_on_run_clicked` reads them with `.get` and a
default: `none` models the key being absent. -/
structure Item where
  command : Option String
  terminal : Option Bool
  use_uwsm : Option Bool

/-- The `use_uwsm` computation of `_on_run_clicked`: force `False` when the
expanded command already contains `"uwsm-app"`, else the configured flag. -/
def compute_use_uwsm (expanded_cmd : String) (config_uwsm : Bool) : Bool :=
  if pyIn "uwsm-app" expanded_cmd then false else config_uwsm

/-- The pure part of `_on_run_clicked`: which `Popen` call (if any) a click
produces.  `resolvedTerm` is the terminal cached at startup and `expand` is
`os.path.expandvars`. -/
def on_run_clicked_spawn (resolvedTerm : Option String) (expand : String → String)
    (item : Item) : Option Popen :=
  let command := (item.command).getD ""
  if isBlank command then Option.none
  else
    let expanded_cmd := expand command
    let use_terminal := (item.terminal).getD false
    let config_uwsm := (item.use_uwsm).getD true
    let use_uwsm := compute_use_uwsm expanded_cmd config_uwsm
    some (if use_terminal then spawn_terminal resolvedTerm expanded_cmd
          else spawn_process expanded_cmd use_uwsm)

/-- `_on_run_clicked` with the OS boundary explicit: `os_spawn` may raise
(`Except.error` with the exception's message).  The handler's `try/except`
turns any such error into a printed log line; the result is `Except.error`
only if an exception escapes the handler. -/
def on_run_clicked (os_spawn : Popen → Except String Unit) (resolvedTerm : Option String)
    (expand : String → String) (item : Item) : Except String (Option String) :=
  match on_run_clicked_spawn resolvedTerm expand item with
  | Option.none => Except.ok Option.none
  | some p =>
    match os_spawn p with
    | Except.ok _ => Except.ok Option.none
    | Except.error e => Except.ok (some ("Error: " ++ e))

/-!  Helper lemmas. -/

/-- `List.find?` returns an element at a position all of whose predecessors
fail the predicate. -/
theorem find?_first {α : Type _} (p : α → Bool) (l : List α) :
    ∀ a, l.find? p = some a →
      ∃ i, ∃ hi : i < l.length, l.get ⟨i, hi⟩ = a ∧ p a = true ∧
        ∀ x ∈ l.take i, p x = false := by
  induction l with
  | nil => intro a h; simp [List.find?] at h
  | cons x xs ih =>
    intro a h
    by_cases hp : p x = true
    · rw [List.find?_cons_of_pos xs hp] at h
      injection h with h'
      subst h'
      exact ⟨0, Nat.succ_pos _, rfl, hp, by intro y hy; simp at hy⟩
    · have hp' : p x = false := by
        cases hpx : p x
        · rfl
        · exact absurd hpx hp
      have hcons : (x :: xs).find? p = xs.find? p := by
        simp [List.find?_cons_of_neg, hp']
      rw [hcons] at h
      obtain ⟨i, hi, hget, hpa, htake⟩ := ih a h
      refine ⟨i + 1, Nat.succ_lt_succ hi, hget, hpa, ?_⟩
      intro y hy
      rw [List.take_succ_cons] at hy
      rcases List.mem_cons.mp hy with rfl | hy'
      · exact hp'
      · exact htake y hy'

/-- `leadsWith n h` holds exactly when `n` is an initial segment of `h`. -/
theorem leadsWith_iff (n : List Char) :
    ∀ h : List Char, leadsWith n h = true ↔ ∃ s, h = n ++ s := by
  induction n with
  | nil => intro h; simp [leadsWith]
  | cons a as ih =>
    intro h
    cases h with
    | nil =>
      simp only [leadsWith]
      constructor
      · intro hfalse; exact absurd hfalse (by simp)
      · rintro ⟨s, hs⟩; exact absurd hs (by simp)
    | cons b bs =>
      simp only [leadsWith, Bool.and_eq_true, beq_iff_eq]
      constructor
      · rintro ⟨rfl, htail⟩
        obtain ⟨s, rfl⟩ := (ih bs).mp htail
        exact ⟨s, rfl⟩
      · rintro ⟨s, hs⟩
        rw [List.cons_append] at hs
        injection hs with h1 h2
        exact ⟨h1.symm ▸ rfl, (ih bs).mpr ⟨s, h2⟩⟩

/-- `hasSub n h` holds exactly when `n` occurs contiguously inside `h`. -/
theorem hasSub_iff (n : List Char) :
    ∀ h : List Char, hasSub n h = true ↔ ∃ p s, h = p ++ n ++ s := by
  intro h
  induction h with
  | nil =>
    simp only [hasSub, List.isEmpty_iff]
    constructor
    · rintro rfl; exact ⟨[], [], rfl⟩
    · rintro ⟨p, s, hps⟩
      rcases List.append_eq_nil.mp ((List.append_assoc p n s ▸ hps).symm) with ⟨hp, hns⟩
      exact (List.append_eq_nil.mp hns).1
  | cons c t ih =>
    simp only [hasSub, Bool.or_eq_true]
    constructor
    · rintro (hlead | hsub)
      · obtain ⟨s, hs⟩ := (leadsWith_iff n (c :: t)).mp hlead
        exact ⟨[], s, by simpa using hs⟩
      · obtain ⟨p, s, hps⟩ := ih.mp hsub
        exact ⟨c :: p, s, by simp [hps]⟩
    · rintro ⟨p, s, hps⟩
      cases p with
      | nil =>
        left
        exact (leadsWith_iff n (c :: t)).mpr ⟨s, by simpa using hps⟩
      | cons d ds =>
        right
        rw [List.cons_append, List.cons_append] at hps
        injection hps with h1 h2
        exact ih.mpr ⟨ds, s, by simpa using h2⟩

/-- Python's `needle in haystack` agrees with string decomposition. -/
theorem pyIn_iff (needle hay : String) :
    pyIn needle hay = true ↔ ∃ pre post : String, hay = pre ++ needle ++ post := by
  unfold pyIn
  rw [hasSub_iff]
  constructor
  · rintro ⟨p, s, hps⟩
    refine ⟨String.mk p, String.mk s, String.ext ?_⟩
    simpa [String.data_append] using hps
  · rintro ⟨pre, post, rfl⟩
    exact ⟨pre.data, post.data, by simp [String.data_append]⟩

/-- C4: for every recognized terminal name, title, shell command and wait
flag, `build_terminal_cmd` ends in `sh -c <command string>`, and with
`wait = true` that command string is the original command with the empty
echo, the "Press Enter to close..." message and the blocking `read`
appended inside the same string. -/
theorem build_terminal_cmd_tail_and_wait_suffix (t title cmd : String) (wait : Bool)
    (h : t ∈ TERMINALS) :
    ∃ pre, build_terminal_cmd t title cmd wait =
      pre ++ ["sh", "-c",
        if wait then cmd ++ "; echo \"\"; echo \"Press Enter to close...\"; read" else cmd] := by
  fin_cases h
  · exact ⟨["kitty", "--title", title], rfl⟩
  · exact ⟨["foot", "--title", title], rfl⟩
  · exact ⟨["alacritty", "--title", title, "-e"], rfl⟩
  · exact ⟨["wezterm", "start", "--"], rfl⟩
  · exact ⟨["gnome-terminal", "--title=" ++ title, "--wait", "--"], rfl⟩
  · exact ⟨["konsole", "--title", title, "-e"], rfl⟩
  · exact ⟨["xfce4-terminal", "-e"], rfl⟩

/-- Witness for C4 at `kitty`, title `"T"`, command `"ls"`, `wait = true`. -/
theorem build_terminal_cmd_tail_and_wait_suffix_witness :
    ∃ pre, build_terminal_cmd "kitty" "T" "ls" true =
      pre ++ ["sh", "-c",
        if true then "ls" ++ "; echo \"\"; echo \"Press Enter to close...\"; read" else "ls"] :=
  build_terminal_cmd_tail_and_wait_suffix "kitty" "T" "ls" true (by decide)

/-- C5: `find_terminal` returns the earliest preference-order name the
executable probe accepts, and the `None` sentinel exactly when the probe
rejects all seven. -/
theorem find_terminal_earliest_match (which : String → Bool) :
    (∀ t, find_terminal which = some t →
        ∃ i, ∃ hi : i < TERMINALS.length, TERMINALS.get ⟨i, hi⟩ = t ∧ which t = true ∧
          ∀ s ∈ TERMINALS.take i, which s = false) ∧
    (find_terminal which = Option.none ↔ ∀ t ∈ TERMINALS, which t = false) := by
  constructor
  · intro t h
    exact find?_first which TERMINALS t h
  · unfold find_terminal
    rw [List.find?_eq_none]
    simp [Bool.not_eq_true]

/-- Witness for C5: a probe accepting exactly `foot` resolves to `foot` at
index 1, with `kitty` (the only earlier name) rejected. -/
theorem find_terminal_earliest_match_witness :
    find_terminal (fun s => s == "foot") = some "foot" ∧
    ∃ i, ∃ hi : i < TERMINALS.length,
      TERMINALS.get ⟨i, hi⟩ = "foot" ∧ (fun s => s == "foot") "foot" = true ∧
      ∀ s ∈ TERMINALS.take i, (fun s => s == "foot") s = false :=
  ⟨rfl, (find_terminal_earliest_match (fun s => s == "foot")).1 "foot" rfl⟩

/-- C6: a missing config file, and any read/parse exception, yield the
synthetic configuration: one page named "Error", one group, one item whose
description carries the failure message; in the missing-file case that
description contains the configuration filename. -/
theorem load_config_fails_soft :
    (∀ r : Except String PyValue, ∃ page group item desc,
        config_pages (load_config false r) = some [page] ∧
        getStrField page "name" = some "Error" ∧
        getListField page "groups" = some [group] ∧
        getListField group "items" = some [item] ∧
        getStrField item "description" = some desc ∧
        pyIn CONFIG_FILENAME desc = true) ∧
    (∀ e : String, ∃ page group item,
        config_pages (load_config true (Except.error e)) = some [page] ∧
        getStrField page "name" = some "Error" ∧
        getListField page "groups" = some [group] ∧
        getListField group "items" = some [item] ∧
        getStrField item "description" = some e) := by
  constructor
  · intro r
    refine ⟨_, _, _, _, rfl, rfl, rfl, rfl, rfl, by decide⟩
  · intro e
    exact ⟨_, _, _, rfl, rfl, rfl, rfl, rfl⟩

/-- C7: a successfully parsed empty/null document yields the empty-pages
configuration. -/
theorem load_config_empty_document :
    load_config true (Except.ok PyValue.none) = PyValue.dict [("pages", PyValue.list [])] := rfl

/-- C10: every falsy parsed document — not only null — is replaced by the
empty-pages configuration; in particular the empty mapping, the empty list,
`False` and `0`. -/
theorem load_config_falsy_document :
    (∀ data : PyValue, truthy data = false →
        load_config true (Except.ok data) = PyValue.dict [("pages", PyValue.list [])]) ∧
    truthy (PyValue.dict []) = false ∧ truthy (PyValue.list []) = false ∧
    truthy (PyValue.bool false) = false ∧ truthy (PyValue.int 0) = false := by
  refine ⟨?_, rfl, rfl, rfl, by decide⟩
  intro data h
  simp [load_config, h]

/-- Witness for C10 at the empty mapping. -/
theorem load_config_falsy_document_witness :
    load_config true (Except.ok (PyValue.dict [])) = PyValue.dict [("pages", PyValue.list [])] :=
  load_config_falsy_document.1 (PyValue.dict []) rfl

/-- C8: a blank (empty, absent, or all-whitespace) command produces no spawn
at all; the result is `none` for every expansion function, so the no-op is
decided before environment-variable expansion. -/
theorem blank_command_no_spawn (resolvedTerm : Option String) (expand : String → String)
    (item : Item) (h : isBlank ((item.command).getD "") = true) :
    on_run_clicked_spawn resolvedTerm expand item = Option.none := by
  simp [on_run_clicked_spawn, h]

/-- Witness for C8 at an all-whitespace command. -/
theorem blank_command_no_spawn_witness :
    on_run_clicked_spawn Option.none id
      { command := some "   ", terminal := some true, use_uwsm := some false } = Option.none :=
  blank_command_no_spawn Option.none id
    { command := some "   ", terminal := some true, use_uwsm := some false } (by decide)

/-- C1: with `terminal = true` and a resolved terminal, the dispatcher spawns
the `wait = true` terminal invocation with `["uwsm-app", "--"]` prepended,
whatever the item's `use_uwsm` flag; with no resolved terminal it falls back
to a background spawn with wrapping forced on. -/
theorem dispatch_terminal_always_wraps (expand : String → String) (item : Item)
    (hterm : (item.terminal).getD false = true)
    (hcmd : isBlank ((item.command).getD "") = false) :
    (∀ t : String, on_run_clicked_spawn (some t) expand item =
        some { args := SpawnArgs.argv (["uwsm-app", "--"] ++
                 build_terminal_cmd t APP_TITLE (expand ((item.command).getD "")) true),
               shell := false, start_new_session := true,
               stdin_devnull := true, stdout_devnull := true, stderr_devnull := true }) ∧
    on_run_clicked_spawn Option.none expand item =
      some { args := SpawnArgs.argv ["uwsm-app", "--", "sh", "-c",
               expand ((item.command).getD "")],
             shell := false, start_new_session := true,
             stdin_devnull := true, stdout_devnull := true, stderr_devnull := true } := by
  constructor
  · intro t
    simp [on_run_clicked_spawn, spawn_terminal, hcmd, hterm]
  · simp [on_run_clicked_spawn, spawn_terminal, spawn_process, hcmd, hterm]

/-- Witness for C1: a `terminal = true` item that sets `use_uwsm = false` is
still wrapped when `kitty` was resolved. -/
theorem dispatch_terminal_always_wraps_witness :
    on_run_clicked_spawn (some "kitty") id
      { command := some "ls", terminal := some true, use_uwsm := some false } =
      some { args := SpawnArgs.argv (["uwsm-app", "--"] ++
               build_terminal_cmd "kitty" APP_TITLE "ls" true),
             shell := false, start_new_session := true,
             stdin_devnull := true, stdout_devnull := true, stderr_devnull := true } :=
  (dispatch_terminal_always_wraps id
    { command := some "ls", terminal := some true, use_uwsm := some false }
    rfl (by decide)).1 "kitty"

/-- C2: with `terminal = false` the dispatcher hands `spawn_process` the
expanded command and the effective `use_uwsm`; wrapping spawns the exact
argument list `["uwsm-app", "--", "sh", "-c", cmd]` with `shell = false`,
not wrapping spawns the raw string with `shell = true`; both detached in a
new session with all three standard streams discarded. -/
theorem dispatch_background_spawn_shape (resolvedTerm : Option String)
    (expand : String → String) (item : Item)
    (hterm : (item.terminal).getD false = false)
    (hcmd : isBlank ((item.command).getD "") = false) :
    on_run_clicked_spawn resolvedTerm expand item =
      some (spawn_process (expand ((item.command).getD ""))
        (compute_use_uwsm (expand ((item.command).getD "")) ((item.use_uwsm).getD true))) ∧
    (∀ c : String, spawn_process c true =
      { args := SpawnArgs.argv ["uwsm-app", "--", "sh", "-c", c], shell := false,
        start_new_session := true, stdin_devnull := true, stdout_devnull := true,
        stderr_devnull := true }) ∧
    (∀ c : String, spawn_process c false =
      { args := SpawnArgs.shellStr c, shell := true, start_new_session := true,
        stdin_devnull := true, stdout_devnull := true, stderr_devnull := true }) := by
  refine ⟨?_, fun c => rfl, fun c => rfl⟩
  simp [on_run_clicked_spawn, hcmd, hterm]

/-- Witness for C2 at `command = "echo hi"` with both flags absent
(`terminal` defaults to false, `use_uwsm` defaults to true). -/
theorem dispatch_background_spawn_shape_witness :
    on_run_clicked_spawn Option.none id
      { command := some "echo hi", terminal := Option.none, use_uwsm := Option.none } =
      some (spawn_process "echo hi" (compute_use_uwsm "echo hi" true)) :=
  (dispatch_background_spawn_shape Option.none id
    { command := some "echo hi", terminal := Option.none, use_uwsm := Option.none }
    rfl (by decide)).1

/-- C3: the effective `use_uwsm` is forced to false exactly when the expanded
command contains the `uwsm-app` token as a substring, and otherwise equals
the configured flag; the dispatcher feeds it the item's flag with default
true when absent. -/
theorem dispatch_use_uwsm_resolution (cfg : Bool) (expanded : String) :
    ((∃ pre post : String, expanded = pre ++ "uwsm-app" ++ post) →
        compute_use_uwsm expanded cfg = false) ∧
    ((¬ ∃ pre post : String, expanded = pre ++ "uwsm-app" ++ post) →
        compute_use_uwsm expanded cfg = cfg) ∧
    (∀ (resolvedTerm : Option String) (expand : String → String) (item : Item),
        isBlank ((item.command).getD "") = false →
        (item.terminal).getD false = false →
        on_run_clicked_spawn resolvedTerm expand item =
          some (spawn_process (expand ((item.command).getD ""))
            (compute_use_uwsm (expand ((item.command).getD ""))
              ((item.use_uwsm).getD true)))) := by
  refine ⟨?_, ?_, ?_⟩
  · intro hex
    have hin : pyIn "uwsm-app" expanded = true := (pyIn_iff "uwsm-app" expanded).mpr hex
    simp [compute_use_uwsm, hin]
  · intro hnex
    have hin : pyIn "uwsm-app" expanded = false := by
      cases hval : pyIn "uwsm-app" expanded
      · rfl
      · exact absurd ((pyIn_iff "uwsm-app" expanded).mp hval) hnex
    simp [compute_use_uwsm, hin]
  · intro resolvedTerm expand item hcmd hterm
    simp [on_run_clicked_spawn, hcmd, hterm]

/-- Witness for C3: a command containing the token is never wrapped, even
with the configured flag true. -/
theorem dispatch_use_uwsm_resolution_witness :
    compute_use_uwsm "uwsm-app -- foo" true = false :=
  (dispatch_use_uwsm_resolution true "uwsm-app -- foo").1 ⟨"", " -- foo", rfl⟩

/-- C9: the click handler's `try/except` catches every spawn-time exception:
for every behavior of the OS spawn boundary the handler returns normally
(with at most a log line), never propagating an error; a raising spawn
yields exactly the logged message. -/
theorem spawn_exception_never_escapes (os_spawn : Popen → Except String Unit)
    (resolvedTerm : Option String) (expand : String → String) (item : Item) :
    (∃ log : Option String,
        on_run_clicked os_spawn resolvedTerm expand item = Except.ok log) ∧
    (∀ (p : Popen) (e : String),
        on_run_clicked_spawn resolvedTerm expand item = some p →
        os_spawn p = Except.error e →
        on_run_clicked os_spawn resolvedTerm expand item =
          Except.ok (some ("Error: " ++ e))) := by
  constructor
  · cases hsp : on_run_clicked_spawn resolvedTerm expand item with
    | none => exact ⟨Option.none, by simp [on_run_clicked, hsp]⟩
    | some p =>
      cases herr : os_spawn p with
      | ok u => exact ⟨Option.none, by simp [on_run_clicked, hsp, herr]⟩
      | error e => exact ⟨some ("Error: " ++ e), by simp [on_run_clicked, hsp, herr]⟩
  · intro p e hspawn herr
    simp [on_run_clicked, hspawn, herr]
